import Mathlib

/-!
# simple-jump (planck.js + WebGL): a shallow embedding of `src/main.js` and
`src/shader-program.js`

Numbers are JavaScript numbers in the source; they are modelled as exact
rationals. The one narrowing conversion the source performs itself, the store
of a number into an element of a gl-matrix `vec3` (a `Float32Array`) in
`update`, is a parameter `store` of `update`: it is `fround` in the running
program and `exactStore` in exact arithmetic. The external collaborators (the
WebGL context, the planck.js world, gl-matrix, the keyboard, `fetch`,
`Date.now`) are modelled by the part of their
documented interface that the source uses. Every call the source issues to
them is recorded, in program order, in a trace of `Effect`s; what the
collaborators answer (compile status, link status, the result of `world.step`,
...) is a parameter.
-/

namespace SimpleJump

/-! ## Vectors and matrices (gl-matrix, planck.js `Vec2`) -/

/-- The planck.js two-vector `pl.Vec2(x, y)`. -/
structure Vec2 where
  x : ℚ
  y : ℚ
deriving DecidableEq

/-- A gl-matrix `vec3`; the fields are the array slots `[0]`, `[1]`, `[2]`. -/
structure Vec3 where
  x : ℚ
  y : ℚ
  z : ℚ
deriving DecidableEq

/-- A gl-matrix `mat4`, as the 4x4 matrix it stands for (row index first). -/
abbrev Mat4 := Matrix (Fin 4) (Fin 4) ℚ

namespace mat4

/-- The matrix that translates by `v`. -/
def fromTranslation (v : Vec3) : Mat4 :=
  !![1, 0, 0, v.x;
     0, 1, 0, v.y;
     0, 0, 1, v.z;
     0, 0, 0, 1]

/-- The matrix that scales the axes by the components of `v`. -/
def fromScaling (v : Vec3) : Mat4 :=
  !![v.x, 0, 0, 0;
     0, v.y, 0, 0;
     0, 0, v.z, 0;
     0, 0, 0, 1]

/-- The result of `mat4.create()` and of `mat4.identity(out)`: the identity,
whatever `out` held before. -/
def identity : Mat4 := 1

/-- The result of `mat4.translate(out, a, v)`: the matrix `a` translated by
`v`, that is `a * T(v)`. -/
def translate (a : Mat4) (v : Vec3) : Mat4 := a * fromTranslation v

/-- The result of `mat4.scale(out, a, v)`: the matrix `a` scaled by `v`, that
is `a * S(v)`. -/
def scale (a : Mat4) (v : Vec3) : Mat4 := a * fromScaling v

/-- The result of `mat4.mul(out, a, b)`: the product `a * b`. -/
def mul (a b : Mat4) : Mat4 := a * b

end mat4

/-! ## The planck.js world -/

/-- The body types the source uses. -/
inductive BodyType where
  | static
  | dynamic
deriving DecidableEq

/-- A box fixture: `pl.Box(hx, hy)` attached with `{ friction }`. -/
structure Fixture where
  hx : ℚ
  hy : ℚ
  friction : ℚ
deriving DecidableEq

/-- A planck.js body, with the fields the calls of the source read or write. -/
structure Body where
  position : Vec2
  type : BodyType
  linearVelocity : Vec2
  fixedRotation : Bool
  fixtures : List Fixture
  force : Vec2
  torque : ℚ
deriving DecidableEq

/-- The planck.js world: the bodies created so far, addressed by their
creation index. A body handle held by the program (such as `playerBody`) is
such an index, and stays valid whatever the simulation does. -/
structure World where
  gravity : Vec2
  bodyCount : Nat
  body : Nat → Body

/-- The answer of `world.step(dt, velocityIterations, positionIterations)`:
the simulation is external, so it is an arbitrary function of the world. -/
abbrev StepFn := World → ℚ → Nat → Nat → World

namespace World

/-- Replace the body stored under handle `id`. -/
def setBody (w : World) (id : Nat) (b : Body) : World :=
  { w with body := fun i => if i = id then b else w.body i }

/-- The world after `world.createBody({ position, type })`, and the handle of
the new body: at rest, rotation free, without fixtures. -/
def createBody (w : World) (position : Vec2) (type : BodyType) : World × Nat :=
  ({ w with
      bodyCount := w.bodyCount + 1
      body := fun i =>
        if i = w.bodyCount then
          { position := position, type := type, linearVelocity := ⟨0, 0⟩,
            fixedRotation := false, fixtures := [], force := ⟨0, 0⟩, torque := 0 }
        else w.body i },
   w.bodyCount)

/-- The world after `body.createFixture(pl.Box(hx, hy), { friction })`. -/
def createFixture (w : World) (id : Nat) (hx hy friction : ℚ) : World :=
  w.setBody id { w.body id with fixtures := (w.body id).fixtures ++ [⟨hx, hy, friction⟩] }

/-- The world after `body.setFixedRotation(flag)`. -/
def setFixedRotation (w : World) (id : Nat) (flag : Bool) : World :=
  w.setBody id { w.body id with fixedRotation := flag }

/-- The world after the velocity of body `id` has been written: `update`
mutates the vector returned by `getLinearVelocity()`, which is the body's own
velocity, and then passes it to `setLinearVelocity`. -/
def setLinearVelocity (w : World) (id : Nat) (v : Vec2) : World :=
  w.setBody id { w.body id with linearVelocity := v }

/-- The world after `world.clearForces()`: force and torque of every body are
reset. -/
def clearForces (w : World) : World :=
  { w with body := fun i => { w.body i with force := ⟨0, 0⟩, torque := 0 } }

end World

/-! ## WebGL objects -/

/-- The two shader stages, `gl.VERTEX_SHADER` and `gl.FRAGMENT_SHADER`. -/
inductive ShaderStage where
  | vertex
  | fragment
deriving DecidableEq

/-- A shader object after `createShader(stage)` and `shaderSource(_, source)`. -/
structure WebGLShader where
  stage : ShaderStage
  source : String
deriving DecidableEq

/-- A program object, with the shaders attached to it, in attach order. -/
structure WebGLProgram where
  attached : List WebGLShader
deriving DecidableEq

/-- A uniform location as held in `uMvpLocation` / `uColorLocation`: `none`
is `undefined` or `null`. -/
abbrev UniformLocation := Option Nat

/-- One call issued to an external collaborator. -/
inductive Effect where
  | clearColor (r g b a : ℚ)
  | clear
  | uniform3fv (location : UniformLocation) (value : List ℚ)
  | uniformMatrix4fv (location : UniformLocation) (transpose : Bool) (value : Mat4)
  | drawArrays (first count : Nat)
  | createShader (stage : ShaderStage)
  | shaderSource (stage : ShaderStage) (source : String)
  | compileShader (shader : WebGLShader)
  | createProgram
  | attachShader (shader : WebGLShader)
  | linkProgram (program : WebGLProgram)
  | useProgram (program : WebGLProgram)
  | createBuffer
  | bindBuffer
  | bufferData (data : List ℚ)
  | getAttribLocation (program : Option WebGLProgram) (name : String)
  | vertexAttribPointer (index : Int) (size : Nat)
  | enableVertexAttribArray (index : Int)
  | getUniformLocation (program : Option WebGLProgram) (name : String)
  | consoleLog (message : String)
  | fetch (url : String)
  | createBody (position : Vec2) (type : BodyType)
  | createFixture (body : Nat) (hx hy friction : ℚ)
  | setFixedRotation (body : Nat) (flag : Bool)
  | step (dt : ℚ) (velocityIterations positionIterations : Nat)
  | setLinearVelocity (body : Nat) (v : Vec2)
  | clearForces
  | requestAnimationFrame

/-! ## Module state of `main.js` -/

/-- The module-level variables of `main.js`. -/
structure Game where
  groundPos : Vec3
  groundSize : Vec3
  platformPos : List Vec3
  platformSize : List Vec3
  playerPos : Vec3
  playerSize : Vec3
  playerBody : Nat
  playerLinearVelocity : Vec2
  world : World
  projViewMatrix : Mat4
  modelMatrix : Mat4
  mvpMatrix : Mat4
  uMvpLocation : UniformLocation
  uColorLocation : UniformLocation
  currentTime : Int
  deltaTime : ℚ
  lastTime : Int

/-- The constant `worldScale`. -/
def worldScale : ℚ := 30

/-- What a function of `main.js` leaves behind: the module state, the calls
it issued, and whether it ended by throwing. -/
structure Outcome where
  game : Game
  trace : List Effect
  threw : Bool

/-- The per-frame answers of the environment: `Date.now()` and
`keyboard.pressed(key)`. -/
structure Frame where
  now : Int
  pressed : String → Bool

/-! ## The store into a `Float32Array` -/

/-- The floor of the binary logarithm of `n`, for `1 ≤ n` (at most `fuel`
halvings). -/
def log2Fuel : Nat → Nat → Nat
  | 0, _ => 0
  | fuel + 1, n => if n < 2 then 0 else log2Fuel fuel (n / 2) + 1

/-- The floor of the binary logarithm of the positive rational `n / d`. -/
def floorLog2 (n d : Nat) : Int :=
  let e0 : Int := (log2Fuel n n : Int) - (log2Fuel d d : Int)
  if d * 2 ^ e0.toNat ≤ n * 2 ^ (-e0).toNat then e0 else e0 - 1

/-- The integer nearest to `n / d`, ties going to the even one. -/
def roundHalfEven (n d : Nat) : Nat :=
  let m := n / d
  let r := n % d
  if 2 * r < d then m else if d < 2 * r then m + 1 else if m % 2 = 0 then m else m + 1

/-- The binary32 number nearest to the positive rational `n / d`, as a pair
`(m, s)` standing for `m / 2 ^ s`: 24 significant bits, the exponent not
below that of the subnormal numbers (-126). -/
def float32Parts (n d : Nat) : Nat × Int :=
  let e := max (floorLog2 n d) (-126)
  let s : Int := 23 - e
  (roundHalfEven (n * 2 ^ s.toNat) (d * 2 ^ (-s).toNat), s)

/-- The number kept when `x` is stored into an element of a `Float32Array`
(`Math.fround`): `x` rounded to the nearest binary32 number, ties to even.
This is the value for magnitudes within the finite range of binary32; beyond
it the array keeps an infinity, which has no rational value. -/
def fround (x : ℚ) : ℚ :=
  if x = 0 then 0
  else
    let p := float32Parts x.num.natAbs x.den
    (if x < 0 then -1 else 1) * (p.1 : ℚ) * 2 ^ (-p.2)

/-- The store of exact arithmetic: the number kept is the number written. -/
def exactStore : ℚ → ℚ := fun x => x

/-! ## `draw` -/

/-- The color of the ground and of the platforms. -/
def staticColor : List ℚ := [0.450, 0.815, 0.443]

/-- The color of the player. -/
def playerColor : List ℚ := [1, 0.776, 0.4]

/-- One entity block of `draw`: color uniform, model matrix rebuilt in the
shared `modelMatrix`, product into `mvpMatrix`, upload, draw call. -/
def drawEntity (g : Game) (color : List ℚ) (pos size : Vec3) : Game × List Effect :=
  let m0 := mat4.identity
  let m1 := mat4.translate m0 pos
  let m2 := mat4.scale m1 size
  let mvp := mat4.mul g.projViewMatrix m2
  ({ g with modelMatrix := m2, mvpMatrix := mvp },
   [Effect.uniform3fv g.uColorLocation color,
    Effect.uniformMatrix4fv g.uMvpLocation false mvp,
    Effect.drawArrays 0 6])

/-- The platform loop of `draw`, from index `i`, with `fuel` iterations left
(`platformPos.length - i`). Reading a missing `platformPos[i]` or
`platformSize[i]` makes gl-matrix throw, after the color uniform was set. -/
def drawPlatforms : Nat → Nat → Game → Outcome
  | 0, _, g => ⟨g, [], false⟩
  | fuel + 1, i, g =>
    match g.platformPos[i]?, g.platformSize[i]? with
    | some p, some s =>
      let r := drawEntity g staticColor p s
      let rest := drawPlatforms fuel (i + 1) r.1
      ⟨rest.game, r.2 ++ rest.trace, rest.threw⟩
    | some p, none =>
      ⟨{ g with modelMatrix := mat4.translate mat4.identity p },
       [Effect.uniform3fv g.uColorLocation staticColor], true⟩
    | none, _ =>
      ⟨{ g with modelMatrix := mat4.identity },
       [Effect.uniform3fv g.uColorLocation staticColor], true⟩

/-- The function `draw()`. -/
def draw (g : Game) : Outcome :=
  let r1 := drawEntity g staticColor g.groundPos g.groundSize
  let r2 := drawEntity r1.1 playerColor r1.1.playerPos r1.1.playerSize
  let r3 := drawPlatforms r2.1.platformPos.length 0 r2.1
  ⟨r3.game, [Effect.clear] ++ r1.2 ++ r2.2 ++ r3.trace, r3.threw⟩

/-! ## `update` -/

/-- The function `update()`, for one frame: the environment answers
`Date.now()` and `keyboard.pressed` by `f` and `world.step` by `step`, and
`store` is what the `Float32Array` behind `playerPos` keeps of a number. The
final `requestAnimationFrame(update)` is recorded; the next frame is run by
`run`. -/
def update (store : ℚ → ℚ) (step : StepFn) (f : Frame) (g : Game) : Outcome :=
  let currentTime := f.now
  let deltaTime : ℚ := ((currentTime - g.lastTime : Int) : ℚ) / 1000
  let world1 := step g.world deltaTime 6 2
  let v0 := (world1.body g.playerBody).linearVelocity
  let v1 := if f.pressed "ArrowUp" || f.pressed "w" || f.pressed " "
    then { v0 with y := -15 } else v0
  let v2 := if f.pressed "ArrowLeft" || f.pressed "a"
    then { v1 with x := -5 } else v1
  let v3 := if f.pressed "ArrowRight" || f.pressed "d"
    then { v2 with x := 5 } else v2
  let world2 := world1.setLinearVelocity g.playerBody v3
  let position := (world2.body g.playerBody).position
  let playerPos := { g.playerPos with
    x := store (position.x * worldScale), y := store (position.y * worldScale) }
  let world3 := world2.clearForces
  let g1 := { g with
    currentTime := currentTime, deltaTime := deltaTime, lastTime := currentTime,
    playerLinearVelocity := v3, world := world3, playerPos := playerPos }
  let d := draw g1
  let physics := [Effect.step deltaTime 6 2, Effect.setLinearVelocity g.playerBody v3,
    Effect.clearForces]
  if d.threw then ⟨d.game, physics ++ d.trace, true⟩
  else ⟨d.game, physics ++ d.trace ++ [Effect.requestAnimationFrame], false⟩

/-- The frame loop: `update` run once per frame of `frames`, each call
scheduled by the `requestAnimationFrame` of the one before; a frame that
throws schedules nothing. -/
def run (store : ℚ → ℚ) (step : StepFn) : List Frame → Game → Outcome
  | [], g => ⟨g, [], false⟩
  | f :: fs, g =>
    let r := update store step f g
    if r.threw then r
    else
      let rest := run store step fs r.game
      ⟨rest.game, r.trace ++ rest.trace, rest.threw⟩

/-! ## `createShaderProgram` (`shader-program.js`) -/

/-- What the browser answers during start-up: the WebGL context, the network
and the clock. A query that throws answers `Except.error`. -/
structure Browser where
  initWebGLContext : String → Bool
  fetchText : String → String
  compileStatus : WebGLShader → Bool
  shaderInfoLog : WebGLShader → String
  linkStatus : WebGLProgram → Bool
  programInfoLog : WebGLProgram → String
  getAttribLocation : Option WebGLProgram → String → Except String Int
  getUniformLocation : Option WebGLProgram → String → Except String UniformLocation
  now : Int

/-- The function `createShaderProgram(path, vertShaderFileName,
fragShaderFileName)`: the program it returns (`none` is `null`) and the calls
it issued. -/
def createShaderProgram (b : Browser) (path vertShaderFileName fragShaderFileName : String) :
    Option WebGLProgram × List Effect :=
  let vertShaderSource := b.fetchText (path ++ vertShaderFileName)
  let fragShaderSource := b.fetchText (path ++ fragShaderFileName)
  let vShader : WebGLShader := ⟨ShaderStage.vertex, vertShaderSource⟩
  let t1 := [Effect.fetch (path ++ vertShaderFileName), Effect.fetch (path ++ fragShaderFileName),
    Effect.createShader ShaderStage.vertex,
    Effect.shaderSource ShaderStage.vertex vertShaderSource,
    Effect.compileShader vShader]
  let ok := b.compileStatus vShader
  if !ok then
    (none, t1 ++ [Effect.consoleLog ("vert: " ++ b.shaderInfoLog vShader)])
  else
    let fShader : WebGLShader := ⟨ShaderStage.fragment, fragShaderSource⟩
    let t2 := t1 ++ [Effect.createShader ShaderStage.fragment,
      Effect.shaderSource ShaderStage.fragment fragShaderSource,
      Effect.compileShader fShader]
    -- the source reads the status of `vShader` here, not of `fShader`
    let ok := b.compileStatus vShader
    if !ok then
      (none, t2 ++ [Effect.consoleLog ("frag: " ++ b.shaderInfoLog fShader)])
    else
      let program : WebGLProgram := ⟨[vShader, fShader]⟩
      let t3 := t2 ++ [Effect.createProgram, Effect.attachShader vShader,
        Effect.attachShader fShader, Effect.linkProgram program]
      let ok := b.linkStatus program
      if !ok then
        (none, t3 ++ [Effect.consoleLog ("link: " ++ b.programInfoLog program)])
      else
        (some program, t3 ++ [Effect.useProgram program])

/-! ## Start-up (`main.js`) -/

/-- The array `vertPositions` of `initVertexBuffers`. -/
def vertPositions : List ℚ :=
  [-0.5, -0.5,
   -0.5, 0.5,
   0.5, -0.5,
   0.5, -0.5,
   -0.5, 0.5,
   0.5, 0.5]

/-- The function `initVertexBuffers(program)`: the calls it issued and whether
it threw (at `gl.getAttribLocation`). -/
def initVertexBuffers (b : Browser) (program : Option WebGLProgram) : List Effect × Bool :=
  let t := [Effect.createBuffer, Effect.bindBuffer, Effect.bufferData vertPositions,
    Effect.getAttribLocation program "aPosition"]
  match b.getAttribLocation program "aPosition" with
  | Except.error _ => (t, true)
  | Except.ok aPositionLocation =>
    (t ++ [Effect.vertexAttribPointer aPositionLocation 2,
      Effect.enableVertexAttribArray aPositionLocation], false)

/-- The platform loop of `initPhysicsObjects`, from index `i`, with `fuel`
iterations left. Reading `platformSize[i][0]` of a missing `platformSize[i]`
throws, after the body was created. -/
def createPlatformBodies : Nat → Nat → Game → Outcome
  | 0, _, g => ⟨g, [], false⟩
  | fuel + 1, i, g =>
    match g.platformPos[i]? with
    | none => ⟨g, [], true⟩
    | some p =>
      let pos : Vec2 := ⟨p.x / worldScale, p.y / worldScale⟩
      let c := g.world.createBody pos BodyType.static
      match g.platformSize[i]? with
      | none => ⟨{ g with world := c.1 }, [Effect.createBody pos BodyType.static], true⟩
      | some s =>
        let hx := s.x / worldScale / 2
        let hy := s.y / worldScale / 2
        let w := c.1.createFixture c.2 hx hy 0.9
        let rest := createPlatformBodies fuel (i + 1) { g with world := w }
        ⟨rest.game,
         [Effect.createBody pos BodyType.static, Effect.createFixture c.2 hx hy 0.9] ++ rest.trace,
         rest.threw⟩

/-- The function `initPhysicsObjects()`. -/
def initPhysicsObjects (g : Game) : Outcome :=
  -- Ground
  let pos : Vec2 := ⟨g.groundPos.x / worldScale, g.groundPos.y / worldScale⟩
  let c := g.world.createBody pos BodyType.static
  let hx := g.groundSize.x / worldScale / 2
  let hy := g.groundSize.y / worldScale / 2
  let w1 := c.1.createFixture c.2 hx hy 0.9
  let tGround := [Effect.createBody pos BodyType.static, Effect.createFixture c.2 hx hy 0.9]
  -- Box
  let pos : Vec2 := ⟨g.playerPos.x / worldScale, g.playerPos.y / worldScale⟩
  let c := w1.createBody pos BodyType.dynamic
  let playerBody := c.2
  let hx := g.playerSize.x / worldScale / 2
  let hy := g.playerSize.y / worldScale / 2
  let w2 := c.1.createFixture playerBody hx hy 0.9
  let w3 := w2.setFixedRotation playerBody true
  let tPlayer := [Effect.createBody pos BodyType.dynamic,
    Effect.createFixture playerBody hx hy 0.9, Effect.setFixedRotation playerBody true]
  -- Platforms
  let g1 := { g with world := w3, playerBody := playerBody }
  let r := createPlatformBodies g1.platformPos.length 0 g1
  ⟨r.game, tGround ++ tPlayer ++ r.trace, r.threw⟩

namespace mat4

/-- The result of `mat4.ortho(out, left, right, bottom, top, near, far)`. -/
def ortho (left right bottom top near far : ℚ) : Mat4 :=
  let lr := 1 / (left - right)
  let bt := 1 / (bottom - top)
  let nf := 1 / (near - far)
  !![-2 * lr, 0, 0, (left + right) * lr;
     0, -2 * bt, 0, (top + bottom) * bt;
     0, 0, 2 * nf, (far + near) * nf;
     0, 0, 0, 1]

/-- The result of `mat4.lookAt(out, [0, 0, 1], [0, 0, 0], [0, 1, 0])`, the
only call of `lookAt` in the source: the camera axes are the coordinate axes
and the eye sits at distance 1 on the z axis. -/
def lookAtUnitZ : Mat4 :=
  !![1, 0, 0, 0;
     0, 1, 0, 0;
     0, 0, 1, -1;
     0, 0, 0, 1]

end mat4

/-- The function `init()`, up to and including its call of `update()` (the
first frame, answered by `f`). `threw = false` with an empty trace is the
silent `return` after `initWebGLContext` failed. -/
def init (b : Browser) (store : ℚ → ℚ) (step : StepFn) (f : Frame) (g : Game) : Outcome :=
  if !b.initWebGLContext "renderCanvas" then ⟨g, [], false⟩
  else
    let t0 := [Effect.clearColor 0.862 0.980 0.972 1.0]
    let cs := createShaderProgram b "./assets/shaders/" "default.vert" "default.frag"
    let program := cs.1
    let vb := initVertexBuffers b program
    let t1 := t0 ++ cs.2 ++ vb.1
    if vb.2 then ⟨g, t1, true⟩
    else
      let t2 := t1 ++ [Effect.getUniformLocation program "uMvpMatrix"]
      match b.getUniformLocation program "uMvpMatrix" with
      | Except.error _ => ⟨g, t2, true⟩
      | Except.ok uMvpLocation =>
        let t3 := t2 ++ [Effect.getUniformLocation program "uColor"]
        match b.getUniformLocation program "uColor" with
        | Except.error _ => ⟨{ g with uMvpLocation := uMvpLocation }, t3, true⟩
        | Except.ok uColorLocation =>
          let projMatrix := mat4.ortho 0 400 400 0 1 (-1)
          let viewMatrix := mat4.lookAtUnitZ
          let g1 := { g with
            uMvpLocation := uMvpLocation, uColorLocation := uColorLocation,
            projViewMatrix := mat4.mul projMatrix viewMatrix }
          let p := initPhysicsObjects g1
          if p.threw then ⟨p.game, t3 ++ p.trace, true⟩
          else
            let g2 := { p.game with lastTime := b.now }
            let u := update store step f g2
            ⟨u.game, t3 ++ p.trace ++ u.trace, u.threw⟩

/-- The module state when `main.js` has been loaded and `init()` has not run
yet: the layout constants, an empty world with gravity `(0, 35)`, identity
matrices. Variables that are still `undefined` hold a placeholder. -/
def initialGame : Game where
  groundPos := ⟨200, 370, 0⟩
  groundSize := ⟨390, 50, 1⟩
  platformPos := [⟨100, 200, 0⟩, ⟨300, 100, 0⟩]
  platformSize := [⟨100, 30, 1⟩, ⟨100, 30, 1⟩]
  playerPos := ⟨200, 25, 0⟩
  playerSize := ⟨50, 50, 1⟩
  playerBody := 0
  playerLinearVelocity := ⟨0, 0⟩
  world := { gravity := ⟨0, 35⟩, bodyCount := 0,
             body := fun _ => { position := ⟨0, 0⟩, type := BodyType.static,
                                linearVelocity := ⟨0, 0⟩, fixedRotation := false,
                                fixtures := [], force := ⟨0, 0⟩, torque := 0 } }
  projViewMatrix := mat4.identity
  modelMatrix := mat4.identity
  mvpMatrix := mat4.identity
  uMvpLocation := none
  uColorLocation := none
  currentTime := 0
  deltaTime := 0
  lastTime := 0

/-! ## Observations on traces and states, used to state the properties -/

/-- The arguments of the `setLinearVelocity` calls of a trace, in order. -/
def setLinearVelocityCalls : List Effect → List (Nat × Vec2)
  | [] => []
  | Effect.setLinearVelocity body v :: t => (body, v) :: setLinearVelocityCalls t
  | _ :: t => setLinearVelocityCalls t

/-- The bodies a trace writes to (`setLinearVelocity`, `createFixture`,
`setFixedRotation`), in order. -/
def bodyWrites : List Effect → List Nat
  | [] => []
  | Effect.setLinearVelocity body _ :: t => body :: bodyWrites t
  | Effect.createFixture body _ _ _ :: t => body :: bodyWrites t
  | Effect.setFixedRotation body _ :: t => body :: bodyWrites t
  | _ :: t => bodyWrites t

/-- The state `g2` differs from `g1` at most in the scratch matrices
`modelMatrix` and `mvpMatrix`. -/
def Game.sameButMatrices (g1 g2 : Game) : Prop :=
  ∃ m mvp, g2 = { g1 with modelMatrix := m, mvpMatrix := mvp }

/-- The value of `deltaTime` computed by `update` in frame `f`. -/
def frameDelta (f : Frame) (g : Game) : ℚ := ((f.now - g.lastTime : Int) : ℚ) / 1000

/-- The velocity that `update` passes to `setLinearVelocity` in frame `f`,
when `v0` is the velocity read after the step (lines 79 to 94). -/
def overriddenVelocity (f : Frame) (v0 : Vec2) : Vec2 :=
  let v1 := if f.pressed "ArrowUp" || f.pressed "w" || f.pressed " "
    then { v0 with y := -15 } else v0
  let v2 := if f.pressed "ArrowLeft" || f.pressed "a"
    then { v1 with x := -5 } else v1
  if f.pressed "ArrowRight" || f.pressed "d" then { v2 with x := 5 } else v2

/-- The velocity of the player body right after the `world.step` of frame `f`. -/
def steppedVelocity (step : StepFn) (f : Frame) (g : Game) : Vec2 :=
  ((step g.world (frameDelta f g) 6 2).body g.playerBody).linearVelocity

/-- The module state at the point where `update` calls `draw()` (lines 73 to
101 have run). -/
def beforeDraw (store : ℚ → ℚ) (step : StepFn) (f : Frame) (g : Game) : Game :=
  let world1 := step g.world (frameDelta f g) 6 2
  let v := overriddenVelocity f (steppedVelocity step f g)
  let world2 := world1.setLinearVelocity g.playerBody v
  let position := (world2.body g.playerBody).position
  { g with
    currentTime := f.now, deltaTime := frameDelta f g, lastTime := f.now,
    playerLinearVelocity := v, world := world2.clearForces,
    playerPos := { g.playerPos with
      x := store (position.x * worldScale), y := store (position.y * worldScale) } }

/-- The calls expected of `draw` for one entity with the given color,
position and size: the color uniform, the transform
`projViewMatrix * translate(pos) * scale(size)`, and a draw of 6 vertices. -/
def entityCalls (g : Game) (color : List ℚ) (pos size : Vec3) : List Effect :=
  [Effect.uniform3fv g.uColorLocation color,
   Effect.uniformMatrix4fv g.uMvpLocation false
     (g.projViewMatrix * (mat4.fromTranslation pos * mat4.fromScaling size)),
   Effect.drawArrays 0 6]

/-- The arguments `(first, count)` of the `drawArrays` calls of a trace, in
order. -/
def drawArraysCalls : List Effect → List (Nat × Nat)
  | [] => []
  | Effect.drawArrays first count :: t => (first, count) :: drawArraysCalls t
  | _ :: t => drawArraysCalls t

/-- The number of `gl.clear` calls of a trace. -/
def clearCalls : List Effect → Nat
  | [] => 0
  | Effect.clear :: t => clearCalls t + 1
  | _ :: t => clearCalls t

/-- The body expected for an entity with position `pos` and size `size`: at
`(pos.x, pos.y) / 30`, at rest, carrying exactly one box fixture with
half-extents `(size.x / 30 / 2, size.y / 30 / 2)` and friction 0.9. -/
def entityBody (type : BodyType) (fixedRotation : Bool) (pos size : Vec3) : Body :=
  { position := ⟨pos.x / 30, pos.y / 30⟩, type := type, linearVelocity := ⟨0, 0⟩,
    fixedRotation := fixedRotation, fixtures := [⟨size.x / 30 / 2, size.y / 30 / 2, 0.9⟩],
    force := ⟨0, 0⟩, torque := 0 }

/-- The `n` bodies of the world with the handles `start`, `start + 1`, ... -/
def World.bodiesFrom (w : World) (start n : Nat) : List Body :=
  (List.range n).map (fun k => w.body (start + k))

/-- The arguments `(position, type)` of the `createBody` calls of a trace, in
order. -/
def createBodyCalls : List Effect → List (Vec2 × BodyType)
  | [] => []
  | Effect.createBody position type :: t => (position, type) :: createBodyCalls t
  | _ :: t => createBodyCalls t

/-- The module state at the point where `initPhysicsObjects` enters its
platform loop (lines 128 to 142 have run): ground body and player body exist. -/
def beforePlatformLoop (g : Game) : Game :=
  let c := g.world.createBody ⟨g.groundPos.x / worldScale, g.groundPos.y / worldScale⟩
    BodyType.static
  let w1 := c.1.createFixture c.2 (g.groundSize.x / worldScale / 2)
    (g.groundSize.y / worldScale / 2) 0.9
  let d := w1.createBody ⟨g.playerPos.x / worldScale, g.playerPos.y / worldScale⟩
    BodyType.dynamic
  let w2 := d.1.createFixture d.2 (g.playerSize.x / worldScale / 2)
    (g.playerSize.y / worldScale / 2) 0.9
  { g with world := w2.setFixedRotation d.2 true, playerBody := d.2 }

/-- The vertices stored in a position buffer that is read two numbers per
vertex (`gl.vertexAttribPointer(aPositionLocation, 2, ...)`). -/
def vertexPairs : List ℚ → List (ℚ × ℚ)
  | a :: b :: t => (a, b) :: vertexPairs t
  | _ => []

/-- The x and y of the image of the vertex `(v.1, v.2, 0, 1)` under `m`. -/
def transformVertex (m : Mat4) (v : ℚ × ℚ) : ℚ × ℚ :=
  ((m.mulVec ![v.1, v.2, 0, 1]) 0, (m.mulVec ![v.1, v.2, 0, 1]) 1)

/-- An axis-aligned rectangle `[xMin, xMax] x [yMin, yMax]`. -/
structure Rect where
  xMin : ℚ
  xMax : ℚ
  yMin : ℚ
  yMax : ℚ
deriving DecidableEq

/-- The rectangle `[p.x - s.x/2, p.x + s.x/2] x [p.y - s.y/2, p.y + s.y/2]`. -/
def renderRect (p s : Vec3) : Rect :=
  ⟨p.x - s.x / 2, p.x + s.x / 2, p.y - s.y / 2, p.y + s.y / 2⟩

/-- The corners of a rectangle, listed in the vertex order of the unit quad
(two triangles). -/
def Rect.quad (r : Rect) : List (ℚ × ℚ) :=
  [(r.xMin, r.yMin), (r.xMin, r.yMax), (r.xMax, r.yMin),
   (r.xMax, r.yMin), (r.xMin, r.yMax), (r.xMax, r.yMax)]

/-- The rectangle `r` scaled by the factor `k` about the origin. -/
def Rect.scale (k : ℚ) (r : Rect) : Rect :=
  ⟨k * r.xMin, k * r.xMax, k * r.yMin, k * r.yMax⟩

/-- The box with centre `c` and half-extents `hx`, `hy`. -/
def boxAt (c : Vec2) (hx hy : ℚ) : Rect :=
  ⟨c.x - hx, c.x + hx, c.y - hy, c.y + hy⟩

/-- The collision boxes of a body: one per fixture, centred at the body's
position. -/
def Body.boxes (b : Body) : List Rect :=
  b.fixtures.map (fun fx => boxAt b.position fx.hx fx.hy)

/-- The programs passed to `gl.useProgram` in a trace, in order. -/
def useProgramCalls : List Effect → List WebGLProgram
  | [] => []
  | Effect.useProgram program :: t => program :: useProgramCalls t
  | _ :: t => useProgramCalls t

/-- The shaders passed to `gl.attachShader` in a trace, in order. -/
def attachShaderCalls : List Effect → List WebGLShader
  | [] => []
  | Effect.attachShader shader :: t => shader :: attachShaderCalls t
  | _ :: t => attachShaderCalls t

/-- The messages passed to `console.log` in a trace, in order. -/
def consoleLogs : List Effect → List String
  | [] => []
  | Effect.consoleLog message :: t => message :: consoleLogs t
  | _ :: t => consoleLogs t

/-- The name of the function a call goes to. -/
def Effect.name : Effect → String
  | Effect.clearColor _ _ _ _ => "gl.clearColor"
  | Effect.clear => "gl.clear"
  | Effect.uniform3fv _ _ => "gl.uniform3fv"
  | Effect.uniformMatrix4fv _ _ _ => "gl.uniformMatrix4fv"
  | Effect.drawArrays _ _ => "gl.drawArrays"
  | Effect.createShader _ => "gl.createShader"
  | Effect.shaderSource _ _ => "gl.shaderSource"
  | Effect.compileShader _ => "gl.compileShader"
  | Effect.createProgram => "gl.createProgram"
  | Effect.attachShader _ => "gl.attachShader"
  | Effect.linkProgram _ => "gl.linkProgram"
  | Effect.useProgram _ => "gl.useProgram"
  | Effect.createBuffer => "gl.createBuffer"
  | Effect.bindBuffer => "gl.bindBuffer"
  | Effect.bufferData _ => "gl.bufferData"
  | Effect.getAttribLocation _ _ => "gl.getAttribLocation"
  | Effect.vertexAttribPointer _ _ => "gl.vertexAttribPointer"
  | Effect.enableVertexAttribArray _ => "gl.enableVertexAttribArray"
  | Effect.getUniformLocation _ _ => "gl.getUniformLocation"
  | Effect.consoleLog _ => "console.log"
  | Effect.fetch _ => "fetch"
  | Effect.createBody _ _ => "world.createBody"
  | Effect.createFixture _ _ _ _ => "body.createFixture"
  | Effect.setFixedRotation _ _ => "body.setFixedRotation"
  | Effect.step _ _ _ => "world.step"
  | Effect.setLinearVelocity _ _ => "body.setLinearVelocity"
  | Effect.clearForces => "world.clearForces"
  | Effect.requestAnimationFrame => "requestAnimationFrame"

/-! ## Concrete environments -/

/-- A simulation that leaves the world as it is. -/
def idleStep : StepFn := fun w _ _ _ => w

/-- A simulation of bodies in free fall, integrated as planck.js does
(velocity first, then position with the new velocity); static bodies rest. -/
def freeFallStep : StepFn := fun w dt _ _ =>
  { w with body := fun i =>
      match (w.body i).type with
      | BodyType.static => w.body i
      | BodyType.dynamic =>
        { w.body i with
          linearVelocity :=
            ⟨(w.body i).linearVelocity.x + dt * w.gravity.x,
             (w.body i).linearVelocity.y + dt * w.gravity.y⟩
          position :=
            ⟨(w.body i).position.x + dt * ((w.body i).linearVelocity.x + dt * w.gravity.x),
             (w.body i).position.y + dt * ((w.body i).linearVelocity.y + dt * w.gravity.y)⟩ } }

/-- A frame at time 16 ms with no key held. -/
def idleFrame : Frame := { now := 16, pressed := fun _ => false }

/-- The module state in which `init()` calls `update()` when the clock reads
0: the shipped layout with its four bodies. -/
def startGame : Game := { (initPhysicsObjects initialGame).game with lastTime := 0 }

/-- A browser in which both shaders compile and the program links. -/
def workingBrowser : Browser where
  initWebGLContext := fun _ => true
  fetchText := fun url => "source of " ++ url
  compileStatus := fun _ => true
  shaderInfoLog := fun _ => ""
  linkStatus := fun _ => true
  programInfoLog := fun _ => ""
  getAttribLocation := fun _ _ => Except.ok 0
  getUniformLocation := fun _ name => Except.ok (some name.length)
  now := 0

/-- A browser in which the vertex shader compiles and the fragment shader
does not; as WebGL prescribes, a program with a shader that did not compile
does not link. -/
def fragmentFailureBrowser : Browser where
  initWebGLContext := fun _ => true
  fetchText := fun url => "source of " ++ url
  compileStatus := fun sh => sh.stage == ShaderStage.vertex
  shaderInfoLog := fun _ => "ERROR: 0:1: syntax error"
  linkStatus := fun _ => false
  programInfoLog := fun _ => "attached shader is not compiled"
  getAttribLocation := fun program _ =>
    match program with
    | some _ => Except.ok 0
    | none => Except.error "TypeError"
  getUniformLocation := fun program name =>
    match program with
    | some _ => Except.ok (some name.length)
    | none => Except.error "TypeError"
  now := 0

/-- A browser in which the vertex shader does not compile and whose WebGL
binding throws a `TypeError` when handed `null` for a program. -/
def strictBrowser : Browser where
  initWebGLContext := fun _ => true
  fetchText := fun url => "source of " ++ url
  compileStatus := fun _ => false
  shaderInfoLog := fun _ => "ERROR: 0:1: syntax error"
  linkStatus := fun _ => false
  programInfoLog := fun _ => "attached shader is not compiled"
  getAttribLocation := fun program _ =>
    match program with
    | some _ => Except.ok 0
    | none => Except.error "TypeError"
  getUniformLocation := fun program name =>
    match program with
    | some _ => Except.ok (some name.length)
    | none => Except.error "TypeError"
  now := 0

/-- A browser in which the vertex shader does not compile and whose WebGL
binding answers a `null` program with `INVALID_VALUE`: attribute location
`-1`, uniform location `null`. -/
def lenientBrowser : Browser where
  initWebGLContext := fun _ => true
  fetchText := fun url => "source of " ++ url
  compileStatus := fun _ => false
  shaderInfoLog := fun _ => "ERROR: 0:1: syntax error"
  linkStatus := fun _ => false
  programInfoLog := fun _ => "attached shader is not compiled"
  getAttribLocation := fun program _ =>
    match program with
    | some _ => Except.ok 0
    | none => Except.ok (-1)
  getUniformLocation := fun program name =>
    match program with
    | some _ => Except.ok (some name.length)
    | none => Except.ok none
  now := 0

/-! ## Lemmas on `draw` -/

theorem setLinearVelocityCalls_append (a b : List Effect) :
    setLinearVelocityCalls (a ++ b) = setLinearVelocityCalls a ++ setLinearVelocityCalls b := by
  induction a with
  | nil => rfl
  | cons e t ih => cases e <;> simp [setLinearVelocityCalls, ih]

theorem bodyWrites_append (a b : List Effect) :
    bodyWrites (a ++ b) = bodyWrites a ++ bodyWrites b := by
  induction a with
  | nil => rfl
  | cons e t ih => cases e <;> simp [bodyWrites, ih]

theorem drawPlatforms_game (fuel i : Nat) (g : Game) :
    g.sameButMatrices (drawPlatforms fuel i g).game := by
  induction fuel generalizing i g with
  | zero => exact ⟨g.modelMatrix, g.mvpMatrix, rfl⟩
  | succ n ih =>
    simp only [drawPlatforms]
    split
    · obtain ⟨m, mvp, h⟩ := ih (i + 1) (drawEntity g staticColor _ _).1
      exact ⟨m, mvp, by rw [h]; rfl⟩
    · exact ⟨_, g.mvpMatrix, rfl⟩
    · exact ⟨_, g.mvpMatrix, rfl⟩

theorem drawPlatforms_bodyWrites (fuel i : Nat) (g : Game) :
    bodyWrites (drawPlatforms fuel i g).trace = [] := by
  induction fuel generalizing i g with
  | zero => rfl
  | succ n ih =>
    simp only [drawPlatforms]
    split
    · simp [drawEntity, bodyWrites, ih]
    · rfl
    · rfl

theorem drawPlatforms_setLinearVelocityCalls (fuel i : Nat) (g : Game) :
    setLinearVelocityCalls (drawPlatforms fuel i g).trace = [] := by
  induction fuel generalizing i g with
  | zero => rfl
  | succ n ih =>
    simp only [drawPlatforms]
    split
    · simp [drawEntity, setLinearVelocityCalls, ih]
    · rfl
    · rfl

theorem draw_game (g : Game) : g.sameButMatrices (draw g).game := by
  obtain ⟨m, mvp, h⟩ := drawPlatforms_game
    (drawEntity (drawEntity g staticColor g.groundPos g.groundSize).1 playerColor
      g.playerPos g.playerSize).1.platformPos.length 0
    (drawEntity (drawEntity g staticColor g.groundPos g.groundSize).1 playerColor
      g.playerPos g.playerSize).1
  exact ⟨m, mvp, h⟩

theorem draw_setLinearVelocityCalls (g : Game) :
    setLinearVelocityCalls (draw g).trace = [] := by
  simp [draw, drawEntity, setLinearVelocityCalls, setLinearVelocityCalls_append,
    drawPlatforms_setLinearVelocityCalls]

theorem draw_bodyWrites (g : Game) : bodyWrites (draw g).trace = [] := by
  simp [draw, drawEntity, bodyWrites, bodyWrites_append, drawPlatforms_bodyWrites]

/-! ## `update`: input-driven velocity overrides -/

theorem update_eq (store : ℚ → ℚ) (step : StepFn) (f : Frame)
    (g : Game) :
    update store step f g =
      if (draw (beforeDraw store step f g)).threw then
        ⟨(draw (beforeDraw store step f g)).game,
         [Effect.step (frameDelta f g) 6 2,
          Effect.setLinearVelocity g.playerBody (overriddenVelocity f (steppedVelocity step f g)),
          Effect.clearForces] ++ (draw (beforeDraw store step f g)).trace, true⟩
      else
        ⟨(draw (beforeDraw store step f g)).game,
         [Effect.step (frameDelta f g) 6 2,
          Effect.setLinearVelocity g.playerBody (overriddenVelocity f (steppedVelocity step f g)),
          Effect.clearForces] ++ (draw (beforeDraw store step f g)).trace ++
           [Effect.requestAnimationFrame], false⟩ := rfl

theorem update_game (store : ℚ → ℚ) (step : StepFn) (f : Frame)
    (g : Game) :
    (beforeDraw store step f g).sameButMatrices (update store step f g).game := by
  rw [update_eq]
  split <;> exact draw_game _

theorem update_setLinearVelocityCalls (store : ℚ → ℚ) (step : StepFn) (f : Frame)
    (g : Game) :
    setLinearVelocityCalls (update store step f g).trace =
      [(g.playerBody, overriddenVelocity f (steppedVelocity step f g))] := by
  rw [update_eq]
  split
  · show setLinearVelocityCalls (_ ++ _) = _
    rw [setLinearVelocityCalls_append, draw_setLinearVelocityCalls]
    rfl
  · show setLinearVelocityCalls (_ ++ _ ++ _) = _
    rw [setLinearVelocityCalls_append, setLinearVelocityCalls_append,
      draw_setLinearVelocityCalls]
    rfl

theorem update_bodyWrites (store : ℚ → ℚ) (step : StepFn) (f : Frame)
    (g : Game) :
    bodyWrites (update store step f g).trace = [g.playerBody] := by
  rw [update_eq]
  split
  · show bodyWrites (_ ++ _) = _
    rw [bodyWrites_append, draw_bodyWrites]
    rfl
  · show bodyWrites (_ ++ _ ++ _) = _
    rw [bodyWrites_append, bodyWrites_append, draw_bodyWrites]
    rfl

/-- C1: in `update()`, whatever velocity `(vx, vy)` the player body has after
`world.step` and whatever the left/right keys do, the one velocity passed to
`playerBody.setLinearVelocity` has `y = -15` when a jump key ("ArrowUp", "w"
or " ") is held, and `y = vy` when none is. -/
theorem update_jump_sets_vertical_velocity (store : ℚ → ℚ) (step : StepFn) (f : Frame)
    (g : Game) :
    ∃ v : Vec2,
      setLinearVelocityCalls (update store step f g).trace = [(g.playerBody, v)] ∧
      v.y = if (f.pressed "ArrowUp" || f.pressed "w" || f.pressed " ") = true then -15
        else ((step g.world (((f.now - g.lastTime : Int) : ℚ) / 1000) 6 2).body
          g.playerBody).linearVelocity.y := by
  refine ⟨_, update_setLinearVelocityCalls store step f g, ?_⟩
  simp only [overriddenVelocity, steppedVelocity, frameDelta]
  split_ifs <;> rfl

/-- C2: in `update()`, whatever velocity `(vx, vy)` the player body has after
`world.step` and whatever the jump keys do, the one velocity passed to
`playerBody.setLinearVelocity` has `x = 5` when a right key ("ArrowRight" or
"d") is held (also when a left key is held too), `x = -5` when a left key
("ArrowLeft" or "a") is held and no right key, and `x = vx` when neither is. -/
theorem update_left_right_set_horizontal_velocity (store : ℚ → ℚ) (step : StepFn) (f : Frame)
    (g : Game) :
    ∃ v : Vec2,
      setLinearVelocityCalls (update store step f g).trace = [(g.playerBody, v)] ∧
      v.x = if (f.pressed "ArrowRight" || f.pressed "d") = true then 5
        else if (f.pressed "ArrowLeft" || f.pressed "a") = true then -5
        else ((step g.world (((f.now - g.lastTime : Int) : ℚ) / 1000) 6 2).body
          g.playerBody).linearVelocity.x := by
  refine ⟨_, update_setLinearVelocityCalls store step f g, ?_⟩
  simp only [overriddenVelocity, steppedVelocity, frameDelta]
  split_ifs <;> rfl

/-! ## `update`: render position and static layout -/

theorem update_fields (store : ℚ → ℚ) (step : StepFn) (f : Frame)
    (g : Game) :
    (update store step f g).game.groundPos = g.groundPos ∧
    (update store step f g).game.groundSize = g.groundSize ∧
    (update store step f g).game.platformPos = g.platformPos ∧
    (update store step f g).game.platformSize = g.platformSize ∧
    (update store step f g).game.playerSize = g.playerSize ∧
    (update store step f g).game.playerBody = g.playerBody ∧
    (update store step f g).game.playerPos = (beforeDraw store step f g).playerPos ∧
    (update store step f g).game.world = (beforeDraw store step f g).world := by
  obtain ⟨m, mvp, h⟩ := update_game store step f g
  rw [h]
  exact ⟨rfl, rfl, rfl, rfl, rfl, rfl, rfl, rfl⟩

theorem beforeDraw_body (store : ℚ → ℚ) (step : StepFn) (f : Frame) (g : Game)
    (id : Nat) :
    ((beforeDraw store step f g).world.body id).position =
      ((step g.world (frameDelta f g) 6 2).body id).position ∧
    (id ≠ g.playerBody → ((beforeDraw store step f g).world.body id).linearVelocity =
      ((step g.world (frameDelta f g) 6 2).body id).linearVelocity) := by
  simp only [beforeDraw, World.clearForces, World.setLinearVelocity, World.setBody]
  by_cases h : id = g.playerBody
  · subst h
    simp
  · simp [h]

theorem update_playerPos_store (store : ℚ → ℚ) (step : StepFn) (f : Frame) (g : Game) :
    (update store step f g).game.playerPos.x =
      store (((step g.world (((f.now - g.lastTime : Int) : ℚ) / 1000) 6 2).body
        g.playerBody).position.x * 30) ∧
    (update store step f g).game.playerPos.y =
      store (((step g.world (((f.now - g.lastTime : Int) : ℚ) / 1000) 6 2).body
        g.playerBody).position.y * 30) ∧
    (update store step f g).game.playerPos.x =
      store (((update store step f g).game.world.body
        (update store step f g).game.playerBody).position.x * worldScale) ∧
    (update store step f g).game.playerPos.y =
      store (((update store step f g).game.world.body
        (update store step f g).game.playerBody).position.y * worldScale) ∧
    (∀ id : Nat, ((update store step f g).game.world.body id).position =
      ((step g.world (((f.now - g.lastTime : Int) : ℚ) / 1000) 6 2).body id).position) := by
  obtain ⟨_, _, _, _, _, hb, hp, hw⟩ := update_fields store step f g
  have key := fun id => (beforeDraw_body store step f g id).1
  rw [hb, hp, hw]
  refine ⟨?_, ?_, ?_, ?_, key⟩
  · simp [beforeDraw, World.setLinearVelocity, World.setBody, worldScale, frameDelta]
  · simp [beforeDraw, World.setLinearVelocity, World.setBody, worldScale, frameDelta]
  · simp [beforeDraw, World.setLinearVelocity, World.setBody, World.clearForces]
  · simp [beforeDraw, World.setLinearVelocity, World.setBody, World.clearForces]

theorem fround_first_frame : fround (15793 / 625) = 13248129 / 524288 := by
  have hn : ((15793 : ℚ) / 625).num = 15793 := by
    have h := @Rat.num_div_eq_of_coprime 15793 625 (by norm_num) (by norm_num)
    simpa using h
  have hd : ((15793 : ℚ) / 625).den = 625 := by
    have h := @Rat.den_div_eq_of_coprime 15793 625 (by norm_num) (by norm_num)
    simp only [Int.cast_ofNat] at h
    exact Int.ofNat.inj h
  have h0 : ¬ ((15793 : ℚ) / 625 = 0) := by norm_num
  have hneg : ¬ ((15793 : ℚ) / 625 < 0) := by norm_num
  have hp : float32Parts (Int.natAbs 15793) 625 = (13248129, 19) := by decide
  simp only [fround, h0, hneg, hn, hd, if_false]
  rw [hp]
  norm_num

theorem fround_representable : fround 25 = 25 ∧ fround 200 = 200 := by
  have h25 : float32Parts (Int.natAbs 25) 1 = (13107200, 19) := by decide
  have h200 : float32Parts (Int.natAbs 200) 1 = (13107200, 16) := by decide
  constructor
  · simp only [fround, Rat.num_ofNat, Rat.den_ofNat]
    rw [h25]
    norm_num
  · simp only [fround, Rat.num_ofNat, Rat.den_ofNat]
    rw [h200]
    norm_num

theorem startGame_first_frame :
    ((freeFallStep startGame.world (((idleFrame.now - startGame.lastTime : Int) : ℚ) / 1000)
      6 2).body startGame.playerBody).position.y * 30 = 15793 / 625 := by
  simp [startGame, initPhysicsObjects, createPlatformBodies, initialGame, World.createBody,
    World.createFixture, World.setFixedRotation, World.setBody, freeFallStep, idleFrame,
    worldScale]
  norm_num

/-- C3 with exact equality fails on the first frame after start-up: 16 ms of free
fall with no key held bring the player body to `y = 15793/18750`, so that
`getPosition().y * worldScale` is `25.2688`, while `playerPos[1]`, an element
of a `Float32Array`, holds the nearest binary32 number
`13248129 / 524288 = 25.268800735473633...`. -/
theorem update_playerPos_exact_equality_fails :
    (update fround freeFallStep idleFrame startGame).game.playerPos.y = 13248129 / 524288 ∧
    ((update fround freeFallStep idleFrame startGame).game.world.body
      (update fround freeFallStep idleFrame startGame).game.playerBody).position.y * worldScale
        = 15793 / 625 ∧
    ¬ ((update fround freeFallStep idleFrame startGame).game.playerPos.y =
      ((update fround freeFallStep idleFrame startGame).game.world.body
        (update fround freeFallStep idleFrame startGame).game.playerBody).position.y
          * worldScale) := by
  obtain ⟨_, hy, _, _, hpos⟩ := update_playerPos_store fround freeFallStep idleFrame startGame
  have hb := (update_fields fround freeFallStep idleFrame startGame).2.2.2.2.2.1
  have h1 : (update fround freeFallStep idleFrame startGame).game.playerPos.y =
      13248129 / 524288 := by
    rw [hy, startGame_first_frame, fround_first_frame]
  have h2 : ((update fround freeFallStep idleFrame startGame).game.world.body
      (update fround freeFallStep idleFrame startGame).game.playerBody).position.y * worldScale
        = 15793 / 625 := by
    rw [hb, hpos]
    exact startGame_first_frame
  refine ⟨h1, h2, ?_⟩
  rw [h1, h2]
  norm_num

/-- C3, as amended: after every call of `update()`, from every prior state
and under every key state, `playerPos[0]` and `playerPos[1]` are the x and y
of the position of `playerBody` times `worldScale` (30), rounded to single
precision by the store into the `Float32Array` behind `playerPos`
(`Math.fround`), that position being the one produced by this frame's
`world.step`; and `update()` leaves the position of every body as `world.step`
produced it (nothing is written back from `playerPos`). -/
theorem update_playerPos_fround_scaled_body_position (step : StepFn) (f : Frame) (g : Game) :
    (update fround step f g).game.playerPos.x =
      fround (((step g.world (((f.now - g.lastTime : Int) : ℚ) / 1000) 6 2).body
        g.playerBody).position.x * 30) ∧
    (update fround step f g).game.playerPos.y =
      fround (((step g.world (((f.now - g.lastTime : Int) : ℚ) / 1000) 6 2).body
        g.playerBody).position.y * 30) ∧
    (update fround step f g).game.playerPos.x =
      fround (((update fround step f g).game.world.body
        (update fround step f g).game.playerBody).position.x * worldScale) ∧
    (update fround step f g).game.playerPos.y =
      fround (((update fround step f g).game.world.body
        (update fround step f g).game.playerBody).position.y * worldScale) ∧
    (∀ id : Nat, ((update fround step f g).game.world.body id).position =
      ((step g.world (((f.now - g.lastTime : Int) : ℚ) / 1000) 6 2).body id).position) :=
  update_playerPos_store fround step f g

theorem run_fields (store : ℚ → ℚ) (step : StepFn)
    (frames : List Frame) (g : Game) :
    (run store step frames g).game.groundPos = g.groundPos ∧
    (run store step frames g).game.groundSize = g.groundSize ∧
    (run store step frames g).game.platformPos = g.platformPos ∧
    (run store step frames g).game.platformSize = g.platformSize ∧
    (run store step frames g).game.playerSize = g.playerSize ∧
    (run store step frames g).game.playerPos.z = g.playerPos.z ∧
    (run store step frames g).game.playerBody = g.playerBody ∧
    (∀ id ∈ bodyWrites (run store step frames g).trace, id = g.playerBody) := by
  induction frames generalizing g with
  | nil => simp [run, bodyWrites]
  | cons f fs ih =>
    obtain ⟨h1, h2, h3, h4, h5, h6, h7, _⟩ := update_fields store step f g
    have hz : (update store step f g).game.playerPos.z = g.playerPos.z := by rw [h7]; rfl
    have hw := update_bodyWrites store step f g
    simp only [run]
    split
    · refine ⟨h1, h2, h3, h4, h5, hz, h6, ?_⟩
      intro id hid
      rw [hw] at hid
      simpa using hid
    · obtain ⟨i1, i2, i3, i4, i5, i6, i7, i8⟩ := ih (update store step f g).game
      refine ⟨i1.trans h1, i2.trans h2, i3.trans h3, i4.trans h4, i5.trans h5, i6.trans hz,
        i7.trans h6, ?_⟩
      intro id hid
      show id = g.playerBody
      have hid2 : id ∈ bodyWrites ((update store step f g).trace ++
          (run store step fs (update store step f g).game).trace) := hid
      rw [bodyWrites_append, hw, List.mem_append] at hid2
      rcases hid2 with h | h
      · simpa using h
      · exact (i8 id h).trans h6

/-- C6: over any number of `update()` calls and any sequence of key states the
static entities never move: `groundPos`, every `platformPos[i]` and every size
vector keep their values (for the shipped layout `groundPos` stays
`(200, 370, 0)`), `update()` writes only `playerPos[0]` and `playerPos[1]` of
the layout, and every body write in the trace targets `playerBody`; in each
frame every other body keeps the position and velocity `world.step` gave it. -/
theorem run_static_entities_never_move (store : ℚ → ℚ) (step : StepFn)
    (frames : List Frame) (g : Game) :
    (run store step frames g).game.groundPos = g.groundPos ∧
    (run store step frames g).game.groundSize = g.groundSize ∧
    (run store step frames g).game.platformPos = g.platformPos ∧
    (run store step frames g).game.platformSize = g.platformSize ∧
    (run store step frames g).game.playerSize = g.playerSize ∧
    (run store step frames g).game.playerPos.z = g.playerPos.z ∧
    (run store step frames g).game.playerBody = g.playerBody ∧
    (∀ id ∈ bodyWrites (run store step frames g).trace, id = g.playerBody) ∧
    (run store step frames initialGame).game.groundPos = ⟨200, 370, 0⟩ ∧
    (∀ (f : Frame) (id : Nat), id ≠ g.playerBody →
      ((update store step f g).game.world.body id).position =
        ((step g.world (((f.now - g.lastTime : Int) : ℚ) / 1000) 6 2).body id).position ∧
      ((update store step f g).game.world.body id).linearVelocity =
        ((step g.world (((f.now - g.lastTime : Int) : ℚ) / 1000) 6 2).body id).linearVelocity) := by
  obtain ⟨h1, h2, h3, h4, h5, h6, h7, h8⟩ := run_fields store step frames g
  refine ⟨h1, h2, h3, h4, h5, h6, h7, h8, (run_fields store step frames initialGame).1, ?_⟩
  intro f id hid
  rw [(update_fields store step f g).2.2.2.2.2.2.2]
  exact ⟨(beforeDraw_body store step f g id).1, (beforeDraw_body store step f g id).2 hid⟩

/-! ## `draw`: the calls issued -/

theorem drawEntity_calls (g : Game) (color : List ℚ) (pos size : Vec3) :
    (drawEntity g color pos size).2 = entityCalls g color pos size := by
  simp [drawEntity, entityCalls, mat4.identity, mat4.translate, mat4.scale, mat4.mul]

theorem drawArraysCalls_append (a b : List Effect) :
    drawArraysCalls (a ++ b) = drawArraysCalls a ++ drawArraysCalls b := by
  induction a with
  | nil => rfl
  | cons e t ih => cases e <;> simp [drawArraysCalls, ih]

theorem clearCalls_append (a b : List Effect) :
    clearCalls (a ++ b) = clearCalls a + clearCalls b := by
  induction a with
  | nil => simp [clearCalls]
  | cons e t ih => cases e <;> simp [clearCalls, ih]; omega

theorem drawPlatforms_trace (fuel i : Nat) (g : Game)
    (hi : i + fuel = g.platformPos.length)
    (hlen : g.platformPos.length ≤ g.platformSize.length) :
    (drawPlatforms fuel i g).threw = false ∧
    (drawPlatforms fuel i g).trace =
      ((g.platformPos.drop i).zip (g.platformSize.drop i)).flatMap
        (fun e => entityCalls g staticColor e.1 e.2) := by
  induction fuel generalizing i g with
  | zero =>
    have h1 : g.platformPos.drop i = [] := List.drop_eq_nil_of_le (by omega)
    simp [drawPlatforms, h1]
  | succ n ih =>
    have hp : i < g.platformPos.length := by omega
    have hs : i < g.platformSize.length := by omega
    obtain ⟨ih1, ih2⟩ := ih (i + 1)
      (drawEntity g staticColor g.platformPos[i] g.platformSize[i]).1
      (by show i + 1 + n = g.platformPos.length; omega) hlen
    simp only [drawPlatforms, List.getElem?_eq_getElem hp, List.getElem?_eq_getElem hs]
    refine ⟨ih1, ?_⟩
    rw [List.drop_eq_getElem_cons hp, List.drop_eq_getElem_cons hs, List.zip_cons_cons,
      List.flatMap_cons, ih2, drawEntity_calls]
    rfl

theorem draw_trace (g : Game) (hlen : g.platformPos.length ≤ g.platformSize.length) :
    (draw g).threw = false ∧
    (draw g).trace =
      Effect.clear :: (entityCalls g staticColor g.groundPos g.groundSize ++
        entityCalls g playerColor g.playerPos g.playerSize ++
        (g.platformPos.zip g.platformSize).flatMap
          (fun e => entityCalls g staticColor e.1 e.2)) := by
  obtain ⟨h1, h2⟩ := drawPlatforms_trace g.platformPos.length 0
    (drawEntity (drawEntity g staticColor g.groundPos g.groundSize).1 playerColor
      g.playerPos g.playerSize).1 (by show 0 + _ = g.platformPos.length; omega) hlen
  refine ⟨h1, ?_⟩
  have h3 : (draw g).trace =
      [Effect.clear] ++ (drawEntity g staticColor g.groundPos g.groundSize).2 ++
        (drawEntity (drawEntity g staticColor g.groundPos g.groundSize).1 playerColor
          g.playerPos g.playerSize).2 ++
        (drawPlatforms g.platformPos.length 0
          (drawEntity (drawEntity g staticColor g.groundPos g.groundSize).1 playerColor
            g.playerPos g.playerSize).1).trace := rfl
  rw [h3, h2, drawEntity_calls, drawEntity_calls]
  simp only [List.drop_zero, List.cons_append, List.nil_append, List.append_assoc]
  rfl

theorem drawArraysCalls_platforms (g : Game) (l : List (Vec3 × Vec3)) :
    drawArraysCalls (l.flatMap (fun e => entityCalls g staticColor e.1 e.2)) =
      List.replicate l.length (0, 6) := by
  induction l with
  | nil => rfl
  | cons a t ih =>
    rw [List.flatMap_cons, drawArraysCalls_append, ih]
    rfl

theorem clearCalls_platforms (g : Game) (l : List (Vec3 × Vec3)) :
    clearCalls (l.flatMap (fun e => entityCalls g staticColor e.1 e.2)) = 0 := by
  induction l with
  | nil => rfl
  | cons a t ih =>
    rw [List.flatMap_cons, clearCalls_append, ih]
    rfl

/-- C7: for every scene state with `n` platforms (each with its size), `draw()`
clears the color buffer once and then issues, in the order ground, player,
platform 0 .. platform n-1, for each entity: the color uniform
(`(0.450, 0.815, 0.443)` for ground and platforms, `(1, 0.776, 0.4)` for the
player), the transform `projViewMatrix * translate(position) * scale(size)` of
that entity (independent of what the shared matrices held before), and one
draw call of 6 vertices; that is exactly `2 + n` draw calls. -/
theorem draw_issues_one_draw_call_per_entity (g : Game)
    (hlen : g.platformPos.length ≤ g.platformSize.length) :
    (draw g).threw = false ∧
    (draw g).trace =
      Effect.clear ::
        ([Effect.uniform3fv g.uColorLocation [0.450, 0.815, 0.443],
          Effect.uniformMatrix4fv g.uMvpLocation false
            (g.projViewMatrix *
              (mat4.fromTranslation g.groundPos * mat4.fromScaling g.groundSize)),
          Effect.drawArrays 0 6] ++
         [Effect.uniform3fv g.uColorLocation [1, 0.776, 0.4],
          Effect.uniformMatrix4fv g.uMvpLocation false
            (g.projViewMatrix *
              (mat4.fromTranslation g.playerPos * mat4.fromScaling g.playerSize)),
          Effect.drawArrays 0 6] ++
         (g.platformPos.zip g.platformSize).flatMap (fun e =>
           [Effect.uniform3fv g.uColorLocation [0.450, 0.815, 0.443],
            Effect.uniformMatrix4fv g.uMvpLocation false
              (g.projViewMatrix * (mat4.fromTranslation e.1 * mat4.fromScaling e.2)),
            Effect.drawArrays 0 6])) ∧
    clearCalls (draw g).trace = 1 ∧
    drawArraysCalls (draw g).trace = List.replicate (2 + g.platformPos.length) (0, 6) := by
  obtain ⟨h1, h2⟩ := draw_trace g hlen
  have hz : (g.platformPos.zip g.platformSize).length = g.platformPos.length := by
    rw [List.length_zip]; omega
  refine ⟨h1, h2, ?_, ?_⟩
  · rw [h2, ← List.singleton_append]
    rw [clearCalls_append, clearCalls_append, clearCalls_append, clearCalls_platforms]
    rfl
  · rw [h2, ← List.singleton_append]
    rw [drawArraysCalls_append, drawArraysCalls_append, drawArraysCalls_append,
      drawArraysCalls_platforms, hz, List.replicate_add]
    rfl

/-! ## `initPhysicsObjects`: one body per entity -/

theorem bodiesFrom_succ (w : World) (start n : Nat) :
    w.bodiesFrom start (n + 1) = w.body start :: w.bodiesFrom (start + 1) n := by
  simp only [World.bodiesFrom, List.range_succ_eq_map, List.map_cons, List.map_map]
  refine congrArg₂ _ rfl (List.map_congr_left ?_)
  intro k _
  show w.body (start + (k + 1)) = w.body (start + 1 + k)
  congr 1
  omega

theorem createBodyCalls_append (a b : List Effect) :
    createBodyCalls (a ++ b) = createBodyCalls a ++ createBodyCalls b := by
  induction a with
  | nil => rfl
  | cons e t ih => cases e <;> simp [createBodyCalls, ih]

theorem createPlatformBodies_spec (fuel i : Nat) (g : Game)
    (hi : i + fuel = g.platformPos.length)
    (hlen : g.platformPos.length ≤ g.platformSize.length) :
    (createPlatformBodies fuel i g).threw = false ∧
    (createPlatformBodies fuel i g).game =
      { g with world := (createPlatformBodies fuel i g).game.world } ∧
    (createPlatformBodies fuel i g).game.world.bodyCount = g.world.bodyCount + fuel ∧
    (∀ j, j < g.world.bodyCount →
      (createPlatformBodies fuel i g).game.world.body j = g.world.body j) ∧
    (createPlatformBodies fuel i g).game.world.bodiesFrom g.world.bodyCount fuel =
      ((g.platformPos.drop i).zip (g.platformSize.drop i)).map
        (fun e => entityBody BodyType.static false e.1 e.2) ∧
    createBodyCalls (createPlatformBodies fuel i g).trace =
      ((g.platformPos.drop i).zip (g.platformSize.drop i)).map
        (fun e => ((⟨e.1.x / 30, e.1.y / 30⟩ : Vec2), BodyType.static)) := by
  induction fuel generalizing i g with
  | zero =>
    have h1 : g.platformPos.drop i = [] := List.drop_eq_nil_of_le (by omega)
    simp [createPlatformBodies, h1, World.bodiesFrom, createBodyCalls]
  | succ n ih =>
    have hp : i < g.platformPos.length := by omega
    have hs : i < g.platformSize.length := by omega
    obtain ⟨ih1, ih2, ih3, ih4, ih5, ih6⟩ := ih (i + 1)
      { g with
        world :=
          (g.world.createBody
            ⟨g.platformPos[i].x / worldScale, g.platformPos[i].y / worldScale⟩
            BodyType.static).1.createFixture g.world.bodyCount
              (g.platformSize[i].x / worldScale / 2) (g.platformSize[i].y / worldScale / 2) 0.9 }
      (by show i + 1 + n = g.platformPos.length; omega) hlen
    simp only [createPlatformBodies, List.getElem?_eq_getElem hp, List.getElem?_eq_getElem hs]
    simp only [World.createBody] at ih1 ih2 ih3 ih4 ih5 ih6 ⊢
    refine ⟨ih1, ?_, ?_, ?_, ?_, ?_⟩
    · rw [ih2]
    · rw [ih3]
      show g.world.bodyCount + 1 + n = g.world.bodyCount + (n + 1)
      omega
    · intro j hj
      rw [ih4 j (by show j < g.world.bodyCount + 1; omega)]
      simp [World.createFixture, World.setBody, Nat.ne_of_lt hj]
    · rw [bodiesFrom_succ, ih4 g.world.bodyCount (by show _ < g.world.bodyCount + 1; omega)]
      rw [List.drop_eq_getElem_cons hp, List.drop_eq_getElem_cons hs, List.zip_cons_cons,
        List.map_cons]
      refine congrArg₂ _ ?_ ih5
      simp [World.createFixture, World.setBody, entityBody, worldScale]
    · rw [List.drop_eq_getElem_cons hp, List.drop_eq_getElem_cons hs, List.zip_cons_cons,
        List.map_cons]
      show createBodyCalls ([_, _] ++ _) = _
      rw [createBodyCalls_append, ih6]
      simp [createBodyCalls, worldScale]

theorem initPhysicsObjects_eq (g : Game) :
    initPhysicsObjects g =
      ⟨(createPlatformBodies g.platformPos.length 0 (beforePlatformLoop g)).game,
       [Effect.createBody ⟨g.groundPos.x / worldScale, g.groundPos.y / worldScale⟩
          BodyType.static,
        Effect.createFixture g.world.bodyCount (g.groundSize.x / worldScale / 2)
          (g.groundSize.y / worldScale / 2) 0.9] ++
       [Effect.createBody ⟨g.playerPos.x / worldScale, g.playerPos.y / worldScale⟩
          BodyType.dynamic,
        Effect.createFixture (g.world.bodyCount + 1) (g.playerSize.x / worldScale / 2)
          (g.playerSize.y / worldScale / 2) 0.9,
        Effect.setFixedRotation (g.world.bodyCount + 1) true] ++
       (createPlatformBodies g.platformPos.length 0 (beforePlatformLoop g)).trace,
       (createPlatformBodies g.platformPos.length 0 (beforePlatformLoop g)).threw⟩ := rfl

theorem beforePlatformLoop_world (g : Game) :
    (beforePlatformLoop g).world.bodyCount = g.world.bodyCount + 2 ∧
    (beforePlatformLoop g).world.body g.world.bodyCount =
      entityBody BodyType.static false g.groundPos g.groundSize ∧
    (beforePlatformLoop g).world.body (g.world.bodyCount + 1) =
      entityBody BodyType.dynamic true g.playerPos g.playerSize ∧
    (∀ j, j < g.world.bodyCount → (beforePlatformLoop g).world.body j = g.world.body j) := by
  refine ⟨rfl, ?_, ?_, ?_⟩
  · simp [beforePlatformLoop, World.createBody, World.createFixture, World.setFixedRotation,
      World.setBody, entityBody, worldScale]
  · simp [beforePlatformLoop, World.createBody, World.createFixture, World.setFixedRotation,
      World.setBody, entityBody, worldScale]
  · intro j hj
    have h1 : j ≠ g.world.bodyCount := Nat.ne_of_lt hj
    have h2 : j ≠ g.world.bodyCount + 1 := by omega
    simp [beforePlatformLoop, World.createBody, World.createFixture, World.setFixedRotation,
      World.setBody, h1, h2]

theorem initPhysicsObjects_spec (g : Game)
    (hlen : g.platformPos.length ≤ g.platformSize.length) :
    (initPhysicsObjects g).threw = false ∧
    (initPhysicsObjects g).game =
      { g with world := (initPhysicsObjects g).game.world,
               playerBody := g.world.bodyCount + 1 } ∧
    (initPhysicsObjects g).game.world.bodyCount =
      g.world.bodyCount + (2 + g.platformPos.length) ∧
    (∀ j, j < g.world.bodyCount → (initPhysicsObjects g).game.world.body j = g.world.body j) ∧
    (initPhysicsObjects g).game.world.bodiesFrom g.world.bodyCount (2 + g.platformPos.length) =
      entityBody BodyType.static false g.groundPos g.groundSize ::
        entityBody BodyType.dynamic true g.playerPos g.playerSize ::
        (g.platformPos.zip g.platformSize).map
          (fun e => entityBody BodyType.static false e.1 e.2) ∧
    createBodyCalls (initPhysicsObjects g).trace =
      ((⟨g.groundPos.x / 30, g.groundPos.y / 30⟩ : Vec2), BodyType.static) ::
        ((⟨g.playerPos.x / 30, g.playerPos.y / 30⟩ : Vec2), BodyType.dynamic) ::
        (g.platformPos.zip g.platformSize).map
          (fun e => ((⟨e.1.x / 30, e.1.y / 30⟩ : Vec2), BodyType.static)) := by
  obtain ⟨h1, h2, h3, h4, h5, h6⟩ := createPlatformBodies_spec g.platformPos.length 0
    (beforePlatformLoop g) (by show 0 + _ = g.platformPos.length; omega) hlen
  obtain ⟨b1, b2, b3, b4⟩ := beforePlatformLoop_world g
  rw [initPhysicsObjects_eq]
  simp only [List.drop_zero] at h5 h6
  rw [b1] at h3 h5
  refine ⟨h1, ?_, ?_, ?_, ?_, ?_⟩
  · show (createPlatformBodies g.platformPos.length 0 (beforePlatformLoop g)).game = _
    rw [h2]
    rfl
  · show (createPlatformBodies g.platformPos.length 0 (beforePlatformLoop g)).game.world.bodyCount
      = _
    rw [h3]
    show g.world.bodyCount + 2 + g.platformPos.length = _
    omega
  · intro j hj
    show (createPlatformBodies g.platformPos.length 0
      (beforePlatformLoop g)).game.world.body j = _
    rw [h4 j (by rw [b1]; omega), b4 j hj]
  · show (createPlatformBodies g.platformPos.length 0
      (beforePlatformLoop g)).game.world.bodiesFrom _ _ = _
    rw [show 2 + g.platformPos.length = g.platformPos.length + 1 + 1 by omega,
      bodiesFrom_succ, bodiesFrom_succ, h4 _ (by rw [b1]; omega), h4 _ (by rw [b1]; omega),
      b2, b3, h5]
    rfl
  · show createBodyCalls (_ ++ _ ++ _) = _
    rw [createBodyCalls_append, createBodyCalls_append, h6]
    simp [createBodyCalls, worldScale]
    rfl

/-- C9: `initPhysicsObjects()` creates exactly one body per entity — `2 +
platformPos.length` bodies, 4 for the shipped layout — in the order ground,
player, platforms; ground and platforms are static, the player is the only
dynamic body and the only one with fixed rotation; each body sits at the
entity's `(x, y) / 30` and carries exactly one box fixture with half-extents
`(size.x / 30 / 2, size.y / 30 / 2)` and friction 0.9. -/
theorem initPhysicsObjects_creates_one_body_per_entity (g : Game)
    (hlen : g.platformPos.length ≤ g.platformSize.length) :
    (initPhysicsObjects g).threw = false ∧
    (initPhysicsObjects g).game.world.bodyCount =
      g.world.bodyCount + (2 + g.platformPos.length) ∧
    (initPhysicsObjects g).game.world.bodiesFrom g.world.bodyCount (2 + g.platformPos.length) =
      entityBody BodyType.static false g.groundPos g.groundSize ::
        entityBody BodyType.dynamic true g.playerPos g.playerSize ::
        (g.platformPos.zip g.platformSize).map
          (fun e => entityBody BodyType.static false e.1 e.2) ∧
    (initPhysicsObjects g).game.playerBody = g.world.bodyCount + 1 ∧
    createBodyCalls (initPhysicsObjects g).trace =
      ((⟨g.groundPos.x / 30, g.groundPos.y / 30⟩ : Vec2), BodyType.static) ::
        ((⟨g.playerPos.x / 30, g.playerPos.y / 30⟩ : Vec2), BodyType.dynamic) ::
        (g.platformPos.zip g.platformSize).map
          (fun e => ((⟨e.1.x / 30, e.1.y / 30⟩ : Vec2), BodyType.static)) ∧
    (initPhysicsObjects initialGame).game.world.bodyCount = 4 := by
  obtain ⟨h1, h2, h3, _, h5, h6⟩ := initPhysicsObjects_spec g hlen
  refine ⟨h1, h3, h5, ?_, h6, ?_⟩
  · rw [h2]
  · exact (initPhysicsObjects_spec initialGame (Nat.le_refl 2)).2.2.1

/-! ## What is drawn is what collides -/

theorem transformVertex_model (p s : Vec3) (v : ℚ × ℚ) :
    transformVertex (mat4.scale (mat4.translate mat4.identity p) s) v =
      (p.x + s.x * v.1, p.y + s.y * v.2) := by
  simp [transformVertex, mat4.scale, mat4.translate, mat4.identity, mat4.fromTranslation,
    mat4.fromScaling, Matrix.mulVec, Matrix.dotProduct, Fin.sum_univ_four, Matrix.mul_apply]
  constructor <;> ring

theorem quad_image (g : Game) (color : List ℚ) (p s : Vec3) :
    (vertexPairs vertPositions).map (transformVertex (drawEntity g color p s).1.modelMatrix) =
      (renderRect p s).quad := by
  show (vertexPairs vertPositions).map
    (transformVertex (mat4.scale (mat4.translate mat4.identity p) s)) = _
  simp only [vertPositions, vertexPairs, List.map_cons, List.map_nil, transformVertex_model,
    Rect.quad, renderRect]
  norm_num
  refine ⟨⟨?_, ?_⟩, ⟨?_, ?_⟩, ⟨?_, ?_⟩, ⟨?_, ?_⟩, ?_, ?_⟩ <;> ring

theorem entityBody_boxes (type : BodyType) (fixedRotation : Bool) (p s : Vec3) :
    (entityBody type fixedRotation p s).boxes.map (Rect.scale worldScale) = [renderRect p s] := by
  simp only [entityBody, Body.boxes, List.map_cons, List.map_nil, boxAt, Rect.scale, renderRect,
    worldScale]
  congr 2 <;> ring

theorem update_playerPos_exact (step : StepFn) (f : Frame) (g : Game) :
    (update exactStore step f g).game.playerPos.x =
      ((update exactStore step f g).game.world.body
        (update exactStore step f g).game.playerBody).position.x * worldScale ∧
    (update exactStore step f g).game.playerPos.y =
      ((update exactStore step f g).game.world.body
        (update exactStore step f g).game.playerBody).position.y * worldScale ∧
    (update exactStore step f g).game.playerSize = g.playerSize := by
  obtain ⟨_, _, hx, hy, _⟩ := update_playerPos_store exactStore step f g
  exact ⟨hx, hy, (update_fields exactStore step f g).2.2.2.2.1⟩

/-- C10: what is drawn is what collides. Over exact rational arithmetic, for
every entity with position `p` and size `s`, the unit-quad vertices
`(+-0.5, +-0.5)` are mapped by the model matrix built in `draw()` to the
corners of the rectangle `[p.x - s.x/2, p.x + s.x/2] x [p.y - s.y/2, p.y +
s.y/2]`; for each entity (ground, player, platforms) this rectangle is 30
times the box of the body `initPhysicsObjects` created for it; and after every
`update()` the player's rectangle is 30 times the box with the player's
half-extents (`s.x / 60`, `s.y / 60`) centred at the body position. -/
theorem drawn_rectangle_is_collision_box (step : StepFn) (f : Frame) (g : Game)
    (hlen : g.platformPos.length ≤ g.platformSize.length) :
    (∀ (color : List ℚ) (p s : Vec3),
      (vertexPairs vertPositions).map
        (transformVertex (drawEntity g color p s).1.modelMatrix) = (renderRect p s).quad) ∧
    ((initPhysicsObjects g).game.world.bodiesFrom g.world.bodyCount
        (2 + g.platformPos.length)).map (fun b => b.boxes.map (Rect.scale worldScale)) =
      ((g.groundPos, g.groundSize) :: (g.playerPos, g.playerSize) ::
        g.platformPos.zip g.platformSize).map (fun e => [renderRect e.1 e.2]) ∧
    renderRect (update exactStore step f g).game.playerPos
        (update exactStore step f g).game.playerSize =
      (boxAt ((update exactStore step f g).game.world.body
          (update exactStore step f g).game.playerBody).position
        (g.playerSize.x / 60) (g.playerSize.y / 60)).scale 30 := by
  refine ⟨fun color p s => quad_image g color p s, ?_, ?_⟩
  · rw [(initPhysicsObjects_spec g hlen).2.2.2.2.1]
    simp only [List.map_cons, List.map_map, entityBody_boxes]
    refine congrArg₂ _ rfl (congrArg₂ _ rfl (List.map_congr_left ?_))
    intro e _
    exact entityBody_boxes _ _ _ _
  · obtain ⟨hx, hy, hs⟩ := update_playerPos_exact step f g
    simp only [renderRect, boxAt, Rect.scale, hx, hy, hs, worldScale]
    congr 1 <;> ring

/-! ## `createShaderProgram` -/

/-- C8: whenever the vertex shader compiles, the fragment shader compiles and
the link succeeds, `createShaderProgram` returns the linked program, with both
shaders attached, and has called `gl.useProgram` on it exactly once; and in
every environment in which it returns `null`, `gl.useProgram` is not called. -/
theorem createShaderProgram_success_activates_program (b : Browser)
    (path vertShaderFileName fragShaderFileName : String)
    (hv : b.compileStatus ⟨ShaderStage.vertex, b.fetchText (path ++ vertShaderFileName)⟩ = true)
    (hf : b.compileStatus
      ⟨ShaderStage.fragment, b.fetchText (path ++ fragShaderFileName)⟩ = true)
    (hl : b.linkStatus
      ⟨[⟨ShaderStage.vertex, b.fetchText (path ++ vertShaderFileName)⟩,
        ⟨ShaderStage.fragment, b.fetchText (path ++ fragShaderFileName)⟩]⟩ = true) :
    ((createShaderProgram b path vertShaderFileName fragShaderFileName).1 =
        some ⟨[⟨ShaderStage.vertex, b.fetchText (path ++ vertShaderFileName)⟩,
          ⟨ShaderStage.fragment, b.fetchText (path ++ fragShaderFileName)⟩]⟩ ∧
      attachShaderCalls (createShaderProgram b path vertShaderFileName fragShaderFileName).2 =
        [⟨ShaderStage.vertex, b.fetchText (path ++ vertShaderFileName)⟩,
          ⟨ShaderStage.fragment, b.fetchText (path ++ fragShaderFileName)⟩] ∧
      useProgramCalls (createShaderProgram b path vertShaderFileName fragShaderFileName).2 =
        [⟨[⟨ShaderStage.vertex, b.fetchText (path ++ vertShaderFileName)⟩,
          ⟨ShaderStage.fragment, b.fetchText (path ++ fragShaderFileName)⟩]⟩]) ∧
    (∀ (b2 : Browser) (p v f : String), (createShaderProgram b2 p v f).1 = none →
      useProgramCalls (createShaderProgram b2 p v f).2 = []) := by
  have _ := hf
  constructor
  · simp [createShaderProgram, hv, hl, attachShaderCalls, useProgramCalls]
  · intro b2 p v f
    unfold createShaderProgram
    by_cases h1 : b2.compileStatus ⟨ShaderStage.vertex, b2.fetchText (p ++ v)⟩ = true
    · by_cases h2 : b2.linkStatus
          ⟨[⟨ShaderStage.vertex, b2.fetchText (p ++ v)⟩,
            ⟨ShaderStage.fragment, b2.fetchText (p ++ f)⟩]⟩ = true
      · simp [h1, h2]
      · simp [h1, h2, useProgramCalls]
    · simp [h1, useProgramCalls]

/-- C4, the fragment stage: with a vertex shader that compiles and a fragment
shader that does not, `createShaderProgram` logs no "frag: " diagnostic: it
goes on to attach and link, and the only diagnostic is the "link: " one. In
every environment the log is empty, or one "vert: " line, or one "link: "
line. -/
theorem createShaderProgram_fragment_failure_is_reported_as_link :
    fragmentFailureBrowser.compileStatus
      ⟨ShaderStage.vertex, fragmentFailureBrowser.fetchText "./assets/shaders/default.vert"⟩
        = true ∧
    fragmentFailureBrowser.compileStatus
      ⟨ShaderStage.fragment, fragmentFailureBrowser.fetchText "./assets/shaders/default.frag"⟩
        = false ∧
    (createShaderProgram fragmentFailureBrowser "./assets/shaders/" "default.vert"
      "default.frag").1 = none ∧
    consoleLogs (createShaderProgram fragmentFailureBrowser "./assets/shaders/" "default.vert"
      "default.frag").2 = ["link: attached shader is not compiled"] ∧
    (createShaderProgram fragmentFailureBrowser "./assets/shaders/" "default.vert"
      "default.frag").2.map Effect.name =
      ["fetch", "fetch", "gl.createShader", "gl.shaderSource", "gl.compileShader",
       "gl.createShader", "gl.shaderSource", "gl.compileShader", "gl.createProgram",
       "gl.attachShader", "gl.attachShader", "gl.linkProgram", "console.log"] ∧
    (∀ (b : Browser) (p v f : String),
      consoleLogs (createShaderProgram b p v f).2 = [] ∨
      consoleLogs (createShaderProgram b p v f).2 =
        ["vert: " ++ b.shaderInfoLog ⟨ShaderStage.vertex, b.fetchText (p ++ v)⟩] ∨
      consoleLogs (createShaderProgram b p v f).2 =
        ["link: " ++ b.programInfoLog ⟨[⟨ShaderStage.vertex, b.fetchText (p ++ v)⟩,
          ⟨ShaderStage.fragment, b.fetchText (p ++ f)⟩]⟩]) := by
  refine ⟨rfl, rfl, rfl, rfl, rfl, ?_⟩
  intro b p v f
  unfold createShaderProgram
  by_cases h1 : b.compileStatus ⟨ShaderStage.vertex, b.fetchText (p ++ v)⟩ = true
  · by_cases h2 : b.linkStatus
        ⟨[⟨ShaderStage.vertex, b.fetchText (p ++ v)⟩,
          ⟨ShaderStage.fragment, b.fetchText (p ++ f)⟩]⟩ = true
    · left
      simp [h1, h2, consoleLogs]
    · right; right
      simp [h1, h2, consoleLogs]
  · right; left
    simp [h1, consoleLogs]

/-! ## `init` -/

/-- C5, the missing check: when the vertex shader does not compile,
`createShaderProgram` yields `null`, and `init()` goes on with it: it calls
`initVertexBuffers(null)`. Where the WebGL binding throws on a `null` program
the start-up ends there, inside `initVertexBuffers`; where it tolerates
`null`, `init()` looks up both uniform locations, creates the four physics
bodies and starts the frame loop. -/
theorem init_goes_on_after_shader_failure :
    (createShaderProgram strictBrowser "./assets/shaders/" "default.vert" "default.frag").1
      = none ∧
    (init strictBrowser fround idleStep idleFrame initialGame).trace.map Effect.name =
      ["gl.clearColor", "fetch", "fetch", "gl.createShader", "gl.shaderSource",
       "gl.compileShader", "console.log",
       "gl.createBuffer", "gl.bindBuffer", "gl.bufferData", "gl.getAttribLocation"] ∧
    (init strictBrowser fround idleStep idleFrame initialGame).threw = true ∧
    (createShaderProgram lenientBrowser "./assets/shaders/" "default.vert" "default.frag").1
      = none ∧
    (init lenientBrowser fround idleStep idleFrame initialGame).trace.map Effect.name =
      ["gl.clearColor", "fetch", "fetch", "gl.createShader", "gl.shaderSource",
       "gl.compileShader", "console.log",
       "gl.createBuffer", "gl.bindBuffer", "gl.bufferData", "gl.getAttribLocation",
       "gl.vertexAttribPointer", "gl.enableVertexAttribArray",
       "gl.getUniformLocation", "gl.getUniformLocation",
       "world.createBody", "body.createFixture",
       "world.createBody", "body.createFixture", "body.setFixedRotation",
       "world.createBody", "body.createFixture",
       "world.createBody", "body.createFixture",
       "world.step", "body.setLinearVelocity", "world.clearForces",
       "gl.clear",
       "gl.uniform3fv", "gl.uniformMatrix4fv", "gl.drawArrays",
       "gl.uniform3fv", "gl.uniformMatrix4fv", "gl.drawArrays",
       "gl.uniform3fv", "gl.uniformMatrix4fv", "gl.drawArrays",
       "gl.uniform3fv", "gl.uniformMatrix4fv", "gl.drawArrays",
       "requestAnimationFrame"] ∧
    (init lenientBrowser fround idleStep idleFrame initialGame).game.world.bodyCount = 4 :=
  ⟨rfl, rfl, rfl, rfl, rfl, rfl⟩

/-! ## Instances at the shipped layout -/

theorem draw_issues_one_draw_call_per_entity_witness :
    initialGame.platformPos.length ≤ initialGame.platformSize.length ∧
    clearCalls (draw initialGame).trace = 1 ∧
    drawArraysCalls (draw initialGame).trace = [(0, 6), (0, 6), (0, 6), (0, 6)] :=
  ⟨Nat.le_refl 2,
   (draw_issues_one_draw_call_per_entity initialGame (Nat.le_refl 2)).2.2.1,
   (draw_issues_one_draw_call_per_entity initialGame (Nat.le_refl 2)).2.2.2⟩

theorem initPhysicsObjects_creates_one_body_per_entity_witness :
    initialGame.platformPos.length ≤ initialGame.platformSize.length ∧
    (initPhysicsObjects initialGame).game.world.bodyCount = 4 ∧
    (initPhysicsObjects initialGame).game.world.bodiesFrom 0 4 =
      [entityBody BodyType.static false ⟨200, 370, 0⟩ ⟨390, 50, 1⟩,
       entityBody BodyType.dynamic true ⟨200, 25, 0⟩ ⟨50, 50, 1⟩,
       entityBody BodyType.static false ⟨100, 200, 0⟩ ⟨100, 30, 1⟩,
       entityBody BodyType.static false ⟨300, 100, 0⟩ ⟨100, 30, 1⟩] :=
  ⟨Nat.le_refl 2,
   (initPhysicsObjects_creates_one_body_per_entity initialGame (Nat.le_refl 2)).2.1,
   (initPhysicsObjects_creates_one_body_per_entity initialGame (Nat.le_refl 2)).2.2.1⟩

theorem drawn_rectangle_is_collision_box_witness :
    initialGame.platformPos.length ≤ initialGame.platformSize.length ∧
    ((initPhysicsObjects initialGame).game.world.bodiesFrom 0 4).map
        (fun b => b.boxes.map (Rect.scale worldScale)) =
      [[renderRect ⟨200, 370, 0⟩ ⟨390, 50, 1⟩], [renderRect ⟨200, 25, 0⟩ ⟨50, 50, 1⟩],
       [renderRect ⟨100, 200, 0⟩ ⟨100, 30, 1⟩], [renderRect ⟨300, 100, 0⟩ ⟨100, 30, 1⟩]] :=
  ⟨Nat.le_refl 2,
   (drawn_rectangle_is_collision_box idleStep idleFrame initialGame (Nat.le_refl 2)).2.1⟩

theorem createShaderProgram_success_activates_program_witness :
    (createShaderProgram workingBrowser "./assets/shaders/" "default.vert" "default.frag").1 =
      some ⟨[⟨ShaderStage.vertex, "source of ./assets/shaders/default.vert"⟩,
        ⟨ShaderStage.fragment, "source of ./assets/shaders/default.frag"⟩]⟩ ∧
    useProgramCalls (createShaderProgram workingBrowser "./assets/shaders/" "default.vert"
      "default.frag").2 =
      [⟨[⟨ShaderStage.vertex, "source of ./assets/shaders/default.vert"⟩,
        ⟨ShaderStage.fragment, "source of ./assets/shaders/default.frag"⟩]⟩] :=
  ⟨(createShaderProgram_success_activates_program workingBrowser "./assets/shaders/"
      "default.vert" "default.frag" rfl rfl rfl).1.1,
   (createShaderProgram_success_activates_program workingBrowser "./assets/shaders/"
      "default.vert" "default.frag" rfl rfl rfl).1.2.2⟩

end SimpleJump
